import Mathlib

/-!
Shallow embedding of the lead-generation pipeline
(`src/main.py`, class `GeneradorLeads`) and of the dashboard metric
computation (`src/dashboard_streamlit.py`, class `DashboardLeads`).

Python floats are modelled as `Rat`: every rating handled by the program
is a finite decimal literal, and the only operations performed on it are
order comparisons against the literal threshold `4.0`, which the decimal
to rational embedding preserves.  `float(s)` on a string is modelled by
`pyFloat?`, a parser for signed decimal literals with an optional
exponent; non-finite literals (`inf`, `nan`) and digit-group underscores
are outside the model, since ratings are finite decimals.  Fallible
steps (an HTTP/JSON error, a record that is not a JSON object, a failed
`float` parse) are rendered with `Option` / explicit error constructors,
and the mutable `self.leads` list is rendered by explicit state passing
on a `GeneradorLeads` record.
-/

namespace SerpLeads

/-- Numeric value of a list of decimal digit characters. -/
def digitsVal (cs : List Char) : Nat :=
  cs.foldl (fun a c => a * 10 + (c.toNat - 48)) 0

/-- A nonempty, all-decimal-digit character list. -/
def allDigits (cs : List Char) : Bool :=
  !cs.isEmpty && cs.all (·.isDigit)

/-- Split a character list at every occurrence of `c` (same grouping as
`str.split(c)` in Python: `n` separators yield `n + 1` groups). -/
def splitOnChar (c : Char) (cs : List Char) : List (List Char) :=
  cs.foldr
    (fun x acc =>
      if x = c then [] :: acc
      else
        match acc with
        | [] => [[x]]
        | grp :: rest => (x :: grp) :: rest)
    [[]]

/-- Strip leading and trailing whitespace, as `float` does before
parsing its argument. -/
def trimChars (cs : List Char) : List Char :=
  ((cs.dropWhile (·.isWhitespace)).reverse.dropWhile (·.isWhitespace)).reverse

/-- Mantissa part of a Python float literal: digits with an optional dot,
at least one digit overall (`"12"`, `"12.5"`, `".5"`, `"12."`).  Returns
the digit value together with the number of fractional digits, so the
mantissa denotes `value / 10 ^ fracLen`. -/
def parseMantissa (cs : List Char) : Option (Nat × Nat) :=
  match splitOnChar '.' cs with
  | [intPart] =>
      if allDigits intPart then some (digitsVal intPart, 0) else none
  | [intPart, fracPart] =>
      if (!intPart.isEmpty || !fracPart.isEmpty)
          && intPart.all (·.isDigit) && fracPart.all (·.isDigit) then
        some (digitsVal (intPart ++ fracPart), fracPart.length)
      else none
  | _ => none

/-- Exponent part of a Python float literal: optional sign, then digits. -/
def parseExponent (cs : List Char) : Option Int :=
  match cs with
  | '-' :: rest => if allDigits rest then some (-(digitsVal rest : Int)) else none
  | '+' :: rest => if allDigits rest then some (digitsVal rest : Int) else none
  | _ => if allDigits cs then some (digitsVal cs : Int) else none

/-- The rational `sign * digits * 10 ^ (ex - fracLen)`, built with
`mkRat` (numerator and denominator assembled with integer arithmetic)
so that concrete values reduce during proof checking. -/
def assembleFloat (sign : Int) (digits fracLen : Nat) (ex : Int) : Rat :=
  let e : Int := ex - (fracLen : Int)
  if 0 ≤ e then mkRat (sign * (digits : Int) * ((10 : Nat) ^ e.toNat : Nat)) 1
  else mkRat (sign * (digits : Int)) ((10 : Nat) ^ (-e).toNat)

/-- Model of Python `float(s)` on a string: surrounding whitespace is
ignored, then an optional sign, a decimal mantissa and an optional
`e`/`E` exponent.  `none` models `ValueError`. -/
def pyFloat? (s : String) : Option Rat :=
  let t := trimChars s.data
  let (sign, body) :=
    match t with
    | '-' :: rest => ((-1 : Int), rest)
    | '+' :: rest => ((1 : Int), rest)
    | _ => ((1 : Int), t)
  match splitOnChar 'e' (body.map Char.toLower) with
  | [m] => (parseMantissa m).map (fun md => assembleFloat sign md.1 md.2 0)
  | [m, ex] =>
      match parseMantissa m, parseExponent ex with
      | some md, some x => some (assembleFloat sign md.1 md.2 x)
      | _, _ => none
  | _ => none

/-- `GeneradorLeads._determinar_prioridad` (src/main.py:115-132). -/
def determinar_prioridad (rating : Rat) (sitio_web : String) : String :=
  if rating < 4 ∨ sitio_web = "No disponible" then "ALTA PRIORIDAD" else "Normal"

/-- One raw business object from the `local_results` array: each field is
either absent or a string value, as consumed by `negocio.get(...)`. -/
structure RawRecord where
  title : Option String
  address : Option String
  phone : Option String
  phone_number : Option String
  rating : Option String
  website : Option String
deriving DecidableEq, Repr

/-- One element of `local_results`: a JSON object, or something that is
not an object (on which `.get` raises and the record is skipped). -/
inductive RawResult where
  | obj (negocio : RawRecord)
  | nonObject
deriving DecidableEq, Repr

/-- Phone extraction (src/main.py:77-80): take `phone`, and if that
produced the sentinel, retry with `phone_number`. -/
def extraer_telefono (negocio : RawRecord) : String :=
  let telefono := negocio.phone.getD "No disponible"
  if telefono = "No disponible" then negocio.phone_number.getD "No disponible" else telefono

/-- Rating extraction (src/main.py:82-87): default the field to `"0"`,
map the empty (falsy) string to `0.0`, parse with `float`, and default
to `0.0` when the parse raises `ValueError`. -/
def extraer_rating (campo : Option String) : Rat :=
  let rating_str := campo.getD "0"
  if rating_str = "" then 0
  else
    match pyFloat? rating_str with
    | some r => r
    | none => 0

/-- One extracted lead (the dict built at src/main.py:96-106); field
names follow the CSV column headers. -/
structure Lead where
  nombre : String
  direccion : String
  telefono : String
  calificacion : Rat
  sitioWeb : String
  tipoNegocio : String
  prioridad : String
  fechaExtraccion : String
  ciudad : String
deriving DecidableEq, Repr

/-- Body of the per-record `try` block in `_procesar_resultados`
(src/main.py:71-109): `none` models an exception caught at line 111 (the
record is not an object), `some` is the lead appended to `self.leads`. -/
def extraer_lead (ciudad fecha tipo : String) : RawResult → Option Lead
  | .nonObject => none
  | .obj negocio =>
      let rating := extraer_rating negocio.rating
      let sitio_web := negocio.website.getD "No disponible"
      some
        { nombre := negocio.title.getD "No disponible"
          direccion := negocio.address.getD "No disponible"
          telefono := extraer_telefono negocio
          calificacion := rating
          sitioWeb := sitio_web
          tipoNegocio := tipo
          prioridad := determinar_prioridad rating sitio_web
          fechaExtraccion := fecha
          ciudad := ciudad }

/-- State of a `GeneradorLeads` instance (src/main.py:8-19). -/
structure GeneradorLeads where
  api_key : String
  ciudad : String
  leads : List Lead
deriving DecidableEq, Repr

/-- One iteration of the loop in `_procesar_resultados`: append the
extracted lead, or skip the record when extraction raised. -/
def procesar_un_negocio (g : GeneradorLeads) (tipo fecha : String) (negocio : RawResult) :
    GeneradorLeads :=
  match extraer_lead g.ciudad fecha tipo negocio with
  | some lead => { g with leads := g.leads ++ [lead] }
  | none => g

/-- `GeneradorLeads._procesar_resultados` (src/main.py:63-113). -/
def procesar_resultados (g : GeneradorLeads) (resultados : List RawResult)
    (tipo fecha : String) : GeneradorLeads :=
  resultados.foldl (fun acc negocio => procesar_un_negocio acc tipo fecha negocio) g

/-- Outcome of one category query, as discriminated by
`buscar_negocios` (src/main.py:42-61): an HTTP-level failure
(`requests.exceptions.RequestException`), a JSON decode failure, any
other exception, a well-formed body without `local_results`, or a
`local_results` array. -/
inductive ApiResponse where
  | requestError
  | jsonError
  | otherError
  | sinLocalResults
  | localResults (resultados : List RawResult)
deriving DecidableEq, Repr

/-- `GeneradorLeads.buscar_negocios` (src/main.py:21-61): only a body
with `local_results` reaches `_procesar_resultados`; every failure is
caught, logged and leaves the state unchanged. -/
def buscar_negocios (g : GeneradorLeads) (resp : ApiResponse) (tipo fecha : String) :
    GeneradorLeads :=
  match resp with
  | .localResults resultados => procesar_resultados g resultados tipo fecha
  | _ => g

/-- The ordinal mapping of src/main.py:148:
`lambda x: 0 if x == "ALTA PRIORIDAD" else 1`. -/
def prioridad_orden (x : String) : Nat :=
  if x = "ALTA PRIORIDAD" then 0 else 1

/-- Boolean sort relation of the two-key sort of src/main.py:149:
ascending `Prioridad_Orden`, then descending `Calificación`. -/
def lead_le (a b : Lead) : Bool :=
  decide (prioridad_orden a.prioridad < prioridad_orden b.prioridad ∨
    (prioridad_orden a.prioridad = prioridad_orden b.prioridad ∧
      b.calificacion ≤ a.calificacion))

/-- The `df.sort_values(by=["Prioridad_Orden", "Calificación"],
ascending=[True, False])` call (src/main.py:149).  A multi-key pandas
sort uses `lexsort_indexer` (numpy stable sorts per key), so it is
stable; `List.mergeSort` is the stable sort of the embedding. -/
def sort_values (leads : List Lead) : List Lead :=
  leads.mergeSort lead_le

/-- `GeneradorLeads.guardar_csv` (src/main.py:134-162): returns the
unchanged instance state plus the row list written to the CSV file
(`none` when there are no leads and no file is written). -/
def guardar_csv (g : GeneradorLeads) : GeneradorLeads × Option (List Lead) :=
  if g.leads.isEmpty then (g, none) else (g, some (sort_values g.leads))

/-- The fixed category list of src/main.py:168-172. -/
def tipos_negocio : List String :=
  ["Talleres mecánicos", "Agencias de seguros", "Clínicas"]

/-- Observable outcome of `ejecutar_busqueda_completa`: final state, the
rows of `clientes_potenciales.csv` and of `clientes_alta_prioridad.csv`
(`none` = file not written), and whether the zero-lead message of
src/main.py:188 was printed. -/
structure RunOutput where
  generador : GeneradorLeads
  fullCsv : Option (List Lead)
  altaCsv : Option (List Lead)
  sinLeads : Bool
deriving DecidableEq, Repr

/-- `GeneradorLeads.ejecutar_busqueda_completa` (src/main.py:164-188).
`respuestas` gives the outcome of the category query for each business
type; the high-priority subset is filtered from the unsorted in-memory
list (src/main.py:182-183). -/
def ejecutar_busqueda_completa (g : GeneradorLeads) (respuestas : String → ApiResponse)
    (fecha : String) : RunOutput :=
  let g1 := tipos_negocio.foldl (fun acc tipo => buscar_negocios acc (respuestas tipo) tipo fecha) g
  if g1.leads.isEmpty then
    { generador := g1, fullCsv := none, altaCsv := none, sinLeads := true }
  else
    let res := guardar_csv g1
    let alta := res.1.leads.filter (fun l => l.prioridad == "ALTA PRIORIDAD")
    { generador := res.1
      fullCsv := res.2
      altaCsv := if alta.isEmpty then none else some alta
      sinLeads := false }

/-- The metric record built by `DashboardLeads.calcular_metricas_clave`
(src/dashboard_streamlit.py:49-59).  `tasa_conversion_estimada` is the
numeric percentage that the source formats as an `.1f%` string. -/
structure Metricas where
  total_leads : Nat
  alta_prioridad : Nat
  sin_web : Nat
  rating_bajo : Nat
  tasa_conversion_estimada : Rat
  valor_potencial_total : Nat
deriving DecidableEq, Repr

/-- `DashboardLeads.calcular_metricas_clave`: on an empty table the
conversion-rate expression divides `len(df)` by zero and raises
`ZeroDivisionError` (modelled as `none`); otherwise the metric record
is produced. -/
def calcular_metricas_clave (df : List Lead) : Option Metricas :=
  let total := df.length
  let alta := (df.filter (fun l => l.prioridad == "ALTA PRIORIDAD")).length
  if total = 0 then none
  else
    some
      { total_leads := total
        alta_prioridad := alta
        sin_web := (df.filter (fun l => l.sitioWeb == "No disponible")).length
        rating_bajo := (df.filter (fun l => decide (l.calificacion < 4))).length
        tasa_conversion_estimada := mkRat (100 * (alta : Int)) total
        valor_potencial_total := total * 2500 }

/-! ## Helper lemmas -/

theorem lead_le_trans : ∀ a b c : Lead, lead_le a b → lead_le b c → lead_le a c := by
  intro a b c hab hbc
  simp only [lead_le, decide_eq_true_eq] at hab hbc ⊢
  rcases hab with h1 | ⟨h1, h1'⟩ <;> rcases hbc with h2 | ⟨h2, h2'⟩
  · exact Or.inl (h1.trans h2)
  · exact Or.inl (h2 ▸ h1)
  · exact Or.inl (h1 ▸ h2)
  · exact Or.inr ⟨h1.trans h2, h2'.trans h1'⟩

theorem lead_le_total : ∀ a b : Lead, lead_le a b || lead_le b a := by
  intro a b
  simp only [lead_le, Bool.or_eq_true, decide_eq_true_eq]
  rcases Nat.lt_trichotomy (prioridad_orden a.prioridad) (prioridad_orden b.prioridad)
    with h | h | h
  · exact Or.inl (Or.inl h)
  · rcases le_total b.calificacion a.calificacion with hc | hc
    · exact Or.inl (Or.inr ⟨h, hc⟩)
    · exact Or.inr (Or.inr ⟨h.symm, hc⟩)
  · exact Or.inr (Or.inl h)

theorem filter_mergeSort_eq {α : Type} (le : α → α → Bool)
    (htrans : ∀ a b c : α, le a b → le b c → le a c)
    (htotal : ∀ a b : α, le a b || le b a)
    (p : α → Bool) (hp : ∀ a b : α, p a → p b → le a b) (l : List α) :
    (l.mergeSort le).filter p = l.filter p := by
  have hpair : (l.filter p).Pairwise (fun a b => le a b = true) :=
    List.pairwise_of_forall_mem_list fun a ha b hb =>
      hp a b (List.mem_filter.mp ha).2 (List.mem_filter.mp hb).2
  have h1 : List.Sublist (l.filter p) (l.mergeSort le) :=
    List.sublist_mergeSort htrans htotal hpair (List.filter_sublist l)
  have h2 : List.Sublist (l.filter p) ((l.mergeSort le).filter p) := by
    have h3 := h1.filter p
    simpa using h3
  have hlen : ((l.mergeSort le).filter p).length = (l.filter p).length :=
    ((List.mergeSort_perm l le).filter p).length_eq
  exact (h2.eq_of_length hlen.symm).symm

theorem procesar_un_negocio_ciudad (g : GeneradorLeads) (tipo fecha : String)
    (negocio : RawResult) : (procesar_un_negocio g tipo fecha negocio).ciudad = g.ciudad := by
  cases h : extraer_lead g.ciudad fecha tipo negocio <;> simp [procesar_un_negocio, h]

theorem procesar_un_negocio_leads (g : GeneradorLeads) (tipo fecha : String)
    (negocio : RawResult) :
    (procesar_un_negocio g tipo fecha negocio).leads =
      g.leads ++ (extraer_lead g.ciudad fecha tipo negocio).toList := by
  cases h : extraer_lead g.ciudad fecha tipo negocio <;> simp [procesar_un_negocio, h]

theorem procesar_resultados_leads :
    ∀ (resultados : List RawResult) (g : GeneradorLeads) (tipo fecha : String),
      (procesar_resultados g resultados tipo fecha).leads =
        g.leads ++ resultados.filterMap (extraer_lead g.ciudad fecha tipo) := by
  intro resultados
  induction resultados with
  | nil => intro g tipo fecha; simp [procesar_resultados]
  | cons r rs ih =>
      intro g tipo fecha
      have hstep : procesar_resultados g (r :: rs) tipo fecha =
          procesar_resultados (procesar_un_negocio g tipo fecha r) rs tipo fecha := rfl
      rw [hstep, ih, procesar_un_negocio_ciudad, procesar_un_negocio_leads]
      cases h : extraer_lead g.ciudad fecha tipo r <;>
        simp [h, List.filterMap_cons]

theorem length_filterMap_eq_length_filter {α β : Type} (f : α → Option β) (l : List α) :
    (l.filterMap f).length = (l.filter (fun a => (f a).isSome)).length := by
  induction l with
  | nil => rfl
  | cons a l ih =>
      cases h : f a <;> simp [List.filterMap_cons, List.filter_cons, h, ih]

theorem buscar_negocios_leads_append (g : GeneradorLeads) (resp : ApiResponse)
    (tipo fecha : String) :
    ∃ new, (buscar_negocios g resp tipo fecha).leads = g.leads ++ new := by
  cases resp
  case localResults rs => exact ⟨_, procesar_resultados_leads rs g tipo fecha⟩
  all_goals exact ⟨[], (List.append_nil _).symm⟩

theorem buscar_fold_append :
    ∀ (tipos : List String) (g : GeneradorLeads) (respuestas : String → ApiResponse)
      (fecha : String),
      ∃ new,
        (tipos.foldl (fun acc tipo => buscar_negocios acc (respuestas tipo) tipo fecha) g).leads
          = g.leads ++ new := by
  intro tipos
  induction tipos with
  | nil => exact fun g _ _ => ⟨[], (List.append_nil _).symm⟩
  | cons t ts ih =>
      intro g respuestas fecha
      obtain ⟨n1, h1⟩ := buscar_negocios_leads_append g (respuestas t) t fecha
      obtain ⟨n2, h2⟩ := ih (buscar_negocios g (respuestas t) t fecha) respuestas fecha
      refine ⟨n1 ++ n2, ?_⟩
      simp only [List.foldl_cons]
      rw [h2, h1, List.append_assoc]

theorem ejecutar_generador_eq (g : GeneradorLeads) (respuestas : String → ApiResponse)
    (fecha : String) :
    (ejecutar_busqueda_completa g respuestas fecha).generador =
      tipos_negocio.foldl (fun acc tipo => buscar_negocios acc (respuestas tipo) tipo fecha) g := by
  unfold ejecutar_busqueda_completa
  by_cases h : (tipos_negocio.foldl
      (fun acc tipo => buscar_negocios acc (respuestas tipo) tipo fecha) g).leads.isEmpty <;>
    simp [h, guardar_csv]

/-! ## Claim theorems -/

/-- C1: the priority classifier is a pure function of (rating, website):
it returns `"ALTA PRIORIDAD"` if and only if the rating is below `4.0`
or the website is the sentinel `"No disponible"`, it returns `"Normal"`
otherwise, and in particular every rating below `4.0` yields
`"ALTA PRIORIDAD"` regardless of the website value. -/
theorem c1_determinar_prioridad_correct (rating : Rat) (sitio_web : String) :
    (determinar_prioridad rating sitio_web = "ALTA PRIORIDAD" ↔
      rating < 4 ∨ sitio_web = "No disponible") ∧
    (determinar_prioridad rating sitio_web = "Normal" ↔
      ¬(rating < 4 ∨ sitio_web = "No disponible")) ∧
    (rating < 4 → determinar_prioridad rating sitio_web = "ALTA PRIORIDAD") := by
  unfold determinar_prioridad
  by_cases h : rating < 4 ∨ sitio_web = "No disponible"
  · rw [if_pos h]
    exact ⟨⟨fun _ => h, fun _ => rfl⟩,
      ⟨fun he => absurd he (by decide), fun hn => absurd h hn⟩,
      fun _ => rfl⟩
  · rw [if_neg h]
    exact ⟨⟨fun he => absurd he (by decide), fun hor => absurd hor h⟩,
      ⟨fun _ => h, fun _ => rfl⟩,
      fun hr => absurd (Or.inl hr) h⟩

/-- Witness for C1 at rating `3` and a non-sentinel website. -/
theorem c1_witness :
    determinar_prioridad 3 "http://abc.com" = "ALTA PRIORIDAD" :=
  (c1_determinar_prioridad_correct 3 "http://abc.com").2.2 (by decide)

/-- C2: extracting the rating never fails a record: every JSON-object
record is turned into a lead, and when the rating field is absent or its
value does not parse as a float the lead's rating is `0`. -/
theorem c2_extraer_rating_total_default (negocio : RawRecord) (ciudad fecha tipo : String) :
    ∃ lead, extraer_lead ciudad fecha tipo (RawResult.obj negocio) = some lead ∧
      (negocio.rating = none → lead.calificacion = 0) ∧
      (∀ s, negocio.rating = some s → pyFloat? s = none → lead.calificacion = 0) := by
  refine ⟨_, rfl, ?_, ?_⟩
  · intro h
    show extraer_rating negocio.rating = 0
    rw [h]
    decide
  · intro s hs hparse
    show extraer_rating negocio.rating = 0
    rw [hs]
    by_cases hse : s = "" <;> simp [extraer_rating, hse, hparse]

/-- Witness for C2 at a record whose rating field is the unparsable
string `"n/a"`. -/
theorem c2_witness :
    ∃ lead,
      extraer_lead "Madrid" "2026-10-12" "Clínicas"
        (RawResult.obj ⟨some "Taller Paco", none, none, none, some "n/a", none⟩) = some lead ∧
      lead.calificacion = 0 := by
  obtain ⟨lead, h1, _, h3⟩ :=
    c2_extraer_rating_total_default ⟨some "Taller Paco", none, none, none, some "n/a", none⟩
      "Madrid" "2026-10-12" "Clínicas"
  exact ⟨lead, h1, h3 "n/a" rfl (by decide)⟩

/-- C6: a category query whose response is an HTTP failure, a JSON
decode failure or any other pre-processing exception leaves the
in-memory lead list (indeed the whole generator state) unchanged, and
the category loop simply continues with the remaining categories; there
is no retry. -/
theorem c6_error_categoria_sin_cambios (g : GeneradorLeads) (resp : ApiResponse)
    (tipo fecha : String)
    (h : resp = ApiResponse.requestError ∨ resp = ApiResponse.jsonError ∨
      resp = ApiResponse.otherError) :
    buscar_negocios g resp tipo fecha = g ∧
    ∀ (respuestas : String → ApiResponse) (rest : List String),
      respuestas tipo = resp →
      (tipo :: rest).foldl (fun acc t => buscar_negocios acc (respuestas t) t fecha) g =
        rest.foldl (fun acc t => buscar_negocios acc (respuestas t) t fecha) g := by
  have hb : buscar_negocios g resp tipo fecha = g := by
    rcases h with h | h | h <;> subst h <;> rfl
  refine ⟨hb, ?_⟩
  intro respuestas rest hresp
  simp only [List.foldl_cons, hresp, hb]

/-- Witness for C6 at an HTTP-failure response. -/
theorem c6_witness :
    buscar_negocios ⟨"clave", "Madrid", []⟩ ApiResponse.requestError "Clínicas" "2026-10-12"
      = ⟨"clave", "Madrid", []⟩ :=
  (c6_error_categoria_sin_cambios ⟨"clave", "Madrid", []⟩ ApiResponse.requestError
    "Clínicas" "2026-10-12" (Or.inl rfl)).1

/-- C7: during result processing, records whose extraction fails are
skipped and the rest are still extracted and appended in order: the
final list is the old list followed by the successful extractions, so
the number of leads appended equals the number of records whose
extraction succeeded. -/
theorem c7_registros_fallidos_omitidos (g : GeneradorLeads) (resultados : List RawResult)
    (tipo fecha : String) :
    (procesar_resultados g resultados tipo fecha).leads =
      g.leads ++ resultados.filterMap (extraer_lead g.ciudad fecha tipo) ∧
    (procesar_resultados g resultados tipo fecha).leads.length =
      g.leads.length +
        (resultados.filter (fun r => (extraer_lead g.ciudad fecha tipo r).isSome)).length := by
  refine ⟨procesar_resultados_leads resultados g tipo fecha, ?_⟩
  rw [procesar_resultados_leads resultados g tipo fecha, List.length_append,
    length_filterMap_eq_length_filter]

/-- C9: the lead list is append-only and leads are never mutated: each
operation returns the old list with zero or more new leads appended at
its end, and `guardar_csv` sorts a copy, leaving the generator state
untouched. -/
theorem c9_append_only :
    (∀ (g : GeneradorLeads) (resp : ApiResponse) (tipo fecha : String),
      ∃ new, (buscar_negocios g resp tipo fecha).leads = g.leads ++ new) ∧
    (∀ (g : GeneradorLeads) (resultados : List RawResult) (tipo fecha : String),
      ∃ new, (procesar_resultados g resultados tipo fecha).leads = g.leads ++ new) ∧
    (∀ g : GeneradorLeads, (guardar_csv g).1 = g) ∧
    (∀ (g : GeneradorLeads) (respuestas : String → ApiResponse) (fecha : String),
      ∃ new, (ejecutar_busqueda_completa g respuestas fecha).generador.leads = g.leads ++ new) := by
  refine ⟨buscar_negocios_leads_append, ?_, ?_, ?_⟩
  · exact fun g resultados tipo fecha => ⟨_, procesar_resultados_leads resultados g tipo fecha⟩
  · intro g
    by_cases h : g.leads.isEmpty <;> simp [guardar_csv, h]
  · intro g respuestas fecha
    rw [ejecutar_generador_eq]
    exact buscar_fold_append tipos_negocio g respuestas fecha

/-- C3: the row list written by `guardar_csv` is a permutation of the
lead list in which priority ranks (HIGH = 0, NORMAL = 1) are
non-decreasing — so every HIGH lead precedes every NORMAL lead — within
equal priority the ratings are non-increasing, and the sort is stable:
filtering any fixed (priority rank, rating) key gives the same sublist,
in the same order, before and after sorting. -/
theorem c3_guardar_csv_orden_estable (g : GeneradorLeads) (h : g.leads ≠ []) :
    ∃ out, (guardar_csv g).2 = some out ∧
      List.Perm out g.leads ∧
      out.Pairwise (fun a b =>
        prioridad_orden a.prioridad ≤ prioridad_orden b.prioridad ∧
          (prioridad_orden a.prioridad = prioridad_orden b.prioridad →
            b.calificacion ≤ a.calificacion)) ∧
      ∀ (p : Nat) (q : Rat),
        out.filter (fun l => decide (prioridad_orden l.prioridad = p ∧ l.calificacion = q)) =
          g.leads.filter (fun l => decide (prioridad_orden l.prioridad = p ∧ l.calificacion = q)) := by
  have hne : g.leads.isEmpty = false := List.isEmpty_eq_false.mpr h
  refine ⟨sort_values g.leads, by simp [guardar_csv, hne], ?_, ?_, ?_⟩
  · exact List.mergeSort_perm g.leads lead_le
  · have hs := List.sorted_mergeSort lead_le_trans lead_le_total g.leads
    refine hs.imp ?_
    intro a b hab
    simp only [lead_le, decide_eq_true_eq] at hab
    rcases hab with h1 | ⟨h1, h1'⟩
    · exact ⟨Nat.le_of_lt h1, fun he => absurd (he ▸ h1) (lt_irrefl _)⟩
    · exact ⟨Nat.le_of_eq h1, fun _ => h1'⟩
  · intro p q
    refine filter_mergeSort_eq lead_le lead_le_trans lead_le_total _ ?_ g.leads
    intro a b ha hb
    simp only [decide_eq_true_eq] at ha hb
    simp only [lead_le, decide_eq_true_eq]
    exact Or.inr ⟨ha.1.trans hb.1.symm, by simp [ha.2, hb.2]⟩

/-- Witness for C3 at a one-lead generator. -/
theorem c3_witness :
    ∃ out,
      (guardar_csv ⟨"clave", "Madrid",
        [⟨"A", "D", "T", 5, "W", "N", "Normal", "f", "Madrid"⟩]⟩).2 = some out ∧
      List.Perm out [⟨"A", "D", "T", 5, "W", "N", "Normal", "f", "Madrid"⟩] := by
  obtain ⟨out, h1, h2, -, -⟩ :=
    c3_guardar_csv_orden_estable
      ⟨"clave", "Madrid", [⟨"A", "D", "T", 5, "W", "N", "Normal", "f", "Madrid"⟩]⟩ (by decide)
  exact ⟨out, h1, h2⟩

/-- C4: when the run collected at least one lead, the full sorted lead
set is written as the first CSV artifact, the second artifact holds
exactly the HIGH-priority leads, and it is skipped precisely when that
subset is empty. -/
theorem c4_dos_artefactos_csv (g : GeneradorLeads) (respuestas : String → ApiResponse)
    (fecha : String)
    (h : (ejecutar_busqueda_completa g respuestas fecha).generador.leads ≠ []) :
    (ejecutar_busqueda_completa g respuestas fecha).fullCsv =
      some (sort_values (ejecutar_busqueda_completa g respuestas fecha).generador.leads) ∧
    List.Perm (sort_values (ejecutar_busqueda_completa g respuestas fecha).generador.leads)
      (ejecutar_busqueda_completa g respuestas fecha).generador.leads ∧
    (ejecutar_busqueda_completa g respuestas fecha).altaCsv =
      (if ((ejecutar_busqueda_completa g respuestas fecha).generador.leads.filter
            (fun l => l.prioridad == "ALTA PRIORIDAD")).isEmpty
        then none
        else some ((ejecutar_busqueda_completa g respuestas fecha).generador.leads.filter
            (fun l => l.prioridad == "ALTA PRIORIDAD"))) ∧
    (∀ l : Lead,
      l ∈ (ejecutar_busqueda_completa g respuestas fecha).generador.leads.filter
          (fun l => l.prioridad == "ALTA PRIORIDAD") ↔
        l ∈ (ejecutar_busqueda_completa g respuestas fecha).generador.leads ∧
          l.prioridad = "ALTA PRIORIDAD") ∧
    (ejecutar_busqueda_completa g respuestas fecha).sinLeads = false := by
  rw [ejecutar_generador_eq] at h ⊢
  have hne : (tipos_negocio.foldl
      (fun acc tipo => buscar_negocios acc (respuestas tipo) tipo fecha) g).leads.isEmpty
        = false := List.isEmpty_eq_false.mpr h
  refine ⟨?_, List.mergeSort_perm _ lead_le, ?_, ?_, ?_⟩ <;>
    simp [ejecutar_busqueda_completa, guardar_csv, hne, List.mem_filter, sort_values]

/-- Witness for C4 at a run whose single category response holds one
record. -/
theorem c4_witness :
    (ejecutar_busqueda_completa ⟨"clave", "Madrid", []⟩
        (fun _ => ApiResponse.localResults
          [RawResult.obj ⟨some "Taller B", none, none, none, some "3.2", none⟩])
        "2026-10-12").sinLeads = false :=
  (c4_dos_artefactos_csv ⟨"clave", "Madrid", []⟩
    (fun _ => ApiResponse.localResults
      [RawResult.obj ⟨some "Taller B", none, none, none, some "3.2", none⟩])
    "2026-10-12" (by decide)).2.2.2.2

/-- C5: a run that collects zero leads writes neither CSV artifact and
reports the zero-lead outcome on the console; `guardar_csv` on that
empty state also writes nothing. -/
theorem c5_cero_leads_sin_csv (g : GeneradorLeads) (respuestas : String → ApiResponse)
    (fecha : String)
    (h : (ejecutar_busqueda_completa g respuestas fecha).generador.leads = []) :
    (ejecutar_busqueda_completa g respuestas fecha).fullCsv = none ∧
    (ejecutar_busqueda_completa g respuestas fecha).altaCsv = none ∧
    (ejecutar_busqueda_completa g respuestas fecha).sinLeads = true ∧
    (guardar_csv (ejecutar_busqueda_completa g respuestas fecha).generador).2 = none := by
  rw [ejecutar_generador_eq] at h ⊢
  have hempty : (tipos_negocio.foldl
      (fun acc tipo => buscar_negocios acc (respuestas tipo) tipo fecha) g).leads.isEmpty
        = true := List.isEmpty_eq_true.mpr h
  refine ⟨?_, ?_, ?_, ?_⟩ <;> simp [ejecutar_busqueda_completa, guardar_csv, hempty]

/-- Witness for C5 at a run whose every category query fails. -/
theorem c5_witness :
    (ejecutar_busqueda_completa ⟨"clave", "Madrid", []⟩ (fun _ => ApiResponse.requestError)
        "2026-10-12").fullCsv = none ∧
    (ejecutar_busqueda_completa ⟨"clave", "Madrid", []⟩ (fun _ => ApiResponse.requestError)
        "2026-10-12").sinLeads = true := by
  obtain ⟨h1, -, h3, -⟩ :=
    c5_cero_leads_sin_csv ⟨"clave", "Madrid", []⟩ (fun _ => ApiResponse.requestError)
      "2026-10-12" (by decide)
  exact ⟨h1, h3⟩

/-- C8 counterexample: a record whose `phone` field is present with the
literal sentinel value and whose `phone_number` is also present.  The
claim says the phone is taken from the first present field — here
`phone`, so it would be `"No disponible"` — but the code falls through
to `phone_number` and extracts `"611 222 333"`. -/
theorem c8_counterexample :
    (⟨none, none, some "No disponible", some "611 222 333", none, none⟩ : RawRecord).phone
        = some "No disponible" ∧
    extraer_telefono ⟨none, none, some "No disponible", some "611 222 333", none, none⟩
        = "611 222 333" ∧
    "611 222 333" ≠ "No disponible" := by decide

/-- C8 amended: the phone is the value of `phone` when that field is
present with a non-sentinel value; otherwise it is the value of
`phone_number` when that is present; and the result is the sentinel
exactly when each of the two fields is absent or holds the sentinel
itself. -/
theorem c8_telefono_amended :
    (∀ (negocio : RawRecord) (s : String),
      negocio.phone = some s → s ≠ "No disponible" → extraer_telefono negocio = s) ∧
    (∀ (negocio : RawRecord) (t : String),
      (negocio.phone = none ∨ negocio.phone = some "No disponible") →
      negocio.phone_number = some t → extraer_telefono negocio = t) ∧
    (∀ negocio : RawRecord,
      extraer_telefono negocio = "No disponible" ↔
        ((negocio.phone = none ∨ negocio.phone = some "No disponible") ∧
          (negocio.phone_number = none ∨ negocio.phone_number = some "No disponible"))) := by
  refine ⟨?_, ?_, ?_⟩
  · intro negocio s hs hne
    simp [extraer_telefono, hs, hne]
  · intro negocio t hp hpn
    rcases hp with hp | hp <;> simp [extraer_telefono, hp, hpn]
  · intro negocio
    cases hp : negocio.phone with
    | none =>
        cases hpn : negocio.phone_number with
        | none => simp [extraer_telefono, hp, hpn]
        | some t =>
            by_cases ht : t = "No disponible" <;> simp [extraer_telefono, hp, hpn, ht]
    | some s =>
        by_cases hs : s = "No disponible"
        · cases hpn : negocio.phone_number with
          | none => simp [extraer_telefono, hp, hpn, hs]
          | some t =>
              by_cases ht : t = "No disponible" <;> simp [extraer_telefono, hp, hpn, hs, ht]
        · simp [extraer_telefono, hp, hs]

/-- Witness for the amended C8 at a record with a non-sentinel phone. -/
theorem c8_witness :
    extraer_telefono ⟨none, none, some "91 555 12 34", none, none, none⟩ = "91 555 12 34" :=
  c8_telefono_amended.1 ⟨none, none, some "91 555 12 34", none, none, none⟩ "91 555 12 34"
    rfl (by decide)

/-- C10: the dashboard metric computation succeeds exactly on non-empty
tables, returning the row count, the HIGH-priority row count and a
conversion percentage equal to the HIGH count divided by the total
(times 100); on the empty table the unguarded division by the row count
raises, so no metric record is produced. -/
theorem c10_metricas_requiere_no_vacio :
    (∀ df : List Lead, df ≠ [] →
      ∃ m, calcular_metricas_clave df = some m ∧
        m.total_leads = df.length ∧
        m.alta_prioridad = (df.filter (fun l => l.prioridad == "ALTA PRIORIDAD")).length ∧
        m.tasa_conversion_estimada =
          (m.alta_prioridad : Rat) / (m.total_leads : Rat) * 100) ∧
    (∀ df : List Lead, calcular_metricas_clave df = none ↔ df = []) := by
  constructor
  · intro df hdf
    have hlen : df.length ≠ 0 := fun hz => hdf (List.length_eq_zero.mp hz)
    unfold calcular_metricas_clave
    rw [if_neg hlen]
    refine ⟨_, rfl, rfl, rfl, ?_⟩
    show mkRat (100 * ((df.filter (fun l => l.prioridad == "ALTA PRIORIDAD")).length : Int))
        df.length = _
    rw [Rat.mkRat_eq_divInt, Rat.divInt_eq_div]
    push_cast
    ring
  · intro df
    constructor
    · intro hc
      by_contra hne
      have hlen : df.length ≠ 0 := fun hz => hne (List.length_eq_zero.mp hz)
      simp [calcular_metricas_clave, hlen] at hc
    · intro hdf
      subst hdf
      rfl

/-- Witness for C10 at a one-row table. -/
theorem c10_witness :
    ∃ m,
      calcular_metricas_clave
        [⟨"A", "D", "T", 3, "W", "N", "ALTA PRIORIDAD", "f", "Madrid"⟩] = some m ∧
      m.total_leads = 1 := by
  obtain ⟨m, h1, h2, -, -⟩ :=
    c10_metricas_requiere_no_vacio.1
      [⟨"A", "D", "T", 3, "W", "N", "ALTA PRIORIDAD", "f", "Madrid"⟩] (by decide)
  exact ⟨m, h1, h2.trans rfl⟩

end SerpLeads
